import Mathlib

/-!
Verification development for the brand-themeable login page
(files config.js and script.js of the repository).

The JavaScript code is shallowly embedded: pure functions become Lean
functions, the mutable page state (current brand, AppState, the DOM
structure the modal manager touches) is passed explicitly, and fallible
operations (parseInt producing NaN) return Option.  Machine arithmetic is
modelled with Nat and Int; the colors handled by the code are 24-bit
values, far below any overflow boundary.
-/

/-! ## Character classes used by the regular expressions in script.js -/

/-- The character class matched by the regex escape backslash-s in
JavaScript (WhiteSpace plus LineTerminator code points); the same set is
removed from the ends of a string by String.prototype.trim. -/
def jsWhitespace (c : Char) : Bool :=
  decide ((9 ≤ c.toNat ∧ c.toNat ≤ 13) ∨ c.toNat = 32 ∨ c.toNat = 160 ∨
    c.toNat = 5760 ∨ (8192 ≤ c.toNat ∧ c.toNat ≤ 8202) ∨ c.toNat = 8232 ∨
    c.toNat = 8233 ∨ c.toNat = 8239 ∨ c.toNat = 8287 ∨ c.toNat = 12288 ∨
    c.toNat = 65279)

/-! ## Color utility (config.js, darkenColor) -/

/-- JavaScript String.prototype.replace with a plain-string pattern
replaces only the first occurrence; color.replace with pattern "#" and
empty replacement therefore removes the first hash sign. -/
def stripFirstHash : List Char → List Char
  | [] => []
  | c :: cs => if c = '#' then cs else c :: stripFirstHash cs

/-- Value of one hexadecimal digit, as accepted by parseInt with radix 16. -/
def hexDigitVal? (c : Char) : Option Nat :=
  if '0' ≤ c ∧ c ≤ '9' then some (c.toNat - 48)
  else if 'a' ≤ c ∧ c ≤ 'f' then some (c.toNat - 87)
  else if 'A' ≤ c ∧ c ≤ 'F' then some (c.toNat - 55)
  else none

/-- Accumulate the longest prefix of hexadecimal digits, as parseInt does. -/
def parseHexDigits : List Char → Nat → Nat
  | [], acc => acc
  | c :: cs, acc =>
    match hexDigitVal? c with
    | some d => parseHexDigits cs (16 * acc + d)
    | none => acc

/-- parseInt(s, 16) on the inputs the color utility receives: none models
the NaN returned when the first character is not a hexadecimal digit,
otherwise the value of the longest digit prefix is returned.  (The sign,
0x-prefix and leading-whitespace handling of parseInt is never exercised
by the repository, which passes color strings of the shape hash followed
by six hex digits.) -/
def parseInt16? (cs : List Char) : Option Nat :=
  match cs with
  | [] => none
  | c :: _ =>
    match hexDigitVal? c with
    | some _ => some (parseHexDigits cs 0)
    | none => none

/-- Math.round(2.55 * percent) for a natural percent: 2.55 * p equals
51 * p / 20, and rounding half away from zero on nonnegative reals is
floor of the value plus one half. -/
def darkenAmt (percent : Nat) : Int :=
  Int.ofNat ((51 * percent + 10) / 20)

/-- The clamp written in darkenColor as the nested conditional
x less-than 255, then x less-than 1 giving 0, else x, else 255. -/
def jsClamp (x : Int) : Int :=
  if x < 255 then (if x < 1 then 0 else x) else 255

/-- (0x1000000 + v).toString(16).slice(1): the seven-hex-digit lowercase
rendering of 0x1000000 + v with its leading digit removed, which
zero-pads v to six hex digits for v below 0x1000000. -/
def hexSlice6 (v : Nat) : String :=
  String.mk ((Nat.toDigits 16 (16777216 + v)).drop 1)

/-- darkenColor from config.js.  The three byte lanes of the parsed
24-bit value are shifted down by amt and clamped; num greater-than-greater-than 16
is division by 65536 on the 24-bit inputs the repository produces. -/
def darkenColor (color : String) (percent : Nat) : Option String :=
  match parseInt16? (stripFirstHash color.data) with
  | none => none
  | some num =>
    let amt : Int := darkenAmt percent
    let R : Int := Int.ofNat (num / 65536) - amt
    let G : Int := Int.ofNat (num / 256 % 256) - amt
    let B : Int := Int.ofNat (num % 256) - amt
    some ("#" ++ hexSlice6
      ((jsClamp R).toNat * 65536 + (jsClamp G).toNat * 256 + (jsClamp B).toNat))

/-! ## Brand registry (config.js, BRAND_CONFIGS / setBrand /
getCurrentBrandConfig) -/

structure ReasonOption where
  value : String
  text : String
deriving DecidableEq

structure LabelSet where
  loginLabel : String
  loginPagePara : String
  createAccountLabel : String
  buttonLabelNext : String
  needHelpLabel : String
  keepMeSignedIn : String
  passwordLabel : String
  forgetPasswordLabel : String
  contactUsTitle : String
  thankYouTitle : String
  thankYouMessage : String
  sendButton : String
  okButton : String
  userSupportTitle : String
  phoneNumber : String
  emailLabel : String
  nameLabel : String
  phoneLabel : String
  reasonLabel : String
  messageLabel : String
  messagePlaceholder : String
  reasonOptions : List ReasonOption
deriving DecidableEq

structure BrandConfig where
  name : String
  logoPath : String
  tagline : String
  primaryColor : String
  secondaryColor : String
  labels : LabelSet
deriving DecidableEq

/-- The reason dropdown options, identical in both brand records. -/
def defaultReasonOptions : List ReasonOption :=
  [⟨"", "Select..."⟩,
   ⟨"technical-support", "Technical Support"⟩,
   ⟨"billing", "Billing"⟩,
   ⟨"general-inquiry", "General Inquiry"⟩,
   ⟨"feature-request", "Feature Request"⟩,
   ⟨"other", "Other"⟩]

/-- The greenheck entry of BRAND_CONFIGS. -/
def greenheckBrand : BrandConfig :=
  { name := "Greenheck"
    logoPath := "Greenheck_Logo.png"
    tagline := ""
    primaryColor := "#1e40af"
    secondaryColor := "#6b7280"
    labels :=
    { loginLabel := "Log In"
      loginPagePara := "Please log in to your Greenheck account."
      createAccountLabel := "Create Account"
      buttonLabelNext := "Next"
      needHelpLabel := "Need help?"
      keepMeSignedIn := "Keep me signed in"
      passwordLabel := "Password"
      forgetPasswordLabel := "Forget Password?"
      contactUsTitle := "Contact Us"
      thankYouTitle := "Thank You!"
      thankYouMessage := "Your Contact request has been submitted. A team member will contact you soon."
      sendButton := "Send"
      okButton := "OK"
      userSupportTitle := "User Support:"
      phoneNumber := "(855) 886-8324"
      emailLabel := "*Email Address"
      nameLabel := "Name"
      phoneLabel := "Phone Number"
      reasonLabel := "*Reason"
      messageLabel := "*Message"
      messagePlaceholder := "Enter Message"
      reasonOptions := defaultReasonOptions } }

/-- The neutral entry of BRAND_CONFIGS. -/
def neutralBrand : BrandConfig :=
  { name := "Company"
    logoPath := "https://via.placeholder.com/200x60/4b5563/ffffff?text=LOGO"
    tagline := ""
    primaryColor := "#4b5563"
    secondaryColor := "#6b7280"
    labels :=
    { loginLabel := "Log In"
      loginPagePara := "Please log in to your account."
      createAccountLabel := "Create Account"
      buttonLabelNext := "Next"
      needHelpLabel := "Need help?"
      keepMeSignedIn := "Keep me signed in"
      passwordLabel := "Password"
      forgetPasswordLabel := "Forget Password?"
      contactUsTitle := "Contact Us"
      thankYouTitle := "Thank You!"
      thankYouMessage := "Your Contact request has been submitted. A team member will contact you soon."
      sendButton := "Send"
      okButton := "OK"
      userSupportTitle := "User Support:"
      phoneNumber := "(855) 123-4567"
      emailLabel := "*Email Address"
      nameLabel := "Name"
      phoneLabel := "Phone Number"
      reasonLabel := "*Reason"
      messageLabel := "*Message"
      messagePlaceholder := "Enter Message"
      reasonOptions := defaultReasonOptions } }

/-- Property lookup on a JavaScript object modelled as an association
list in key-declaration order. -/
def assocFind {α : Type} : List (String × α) → String → Option α
  | [], _ => none
  | (k, v) :: rest, id => if k = id then some v else assocFind rest id

/-- The BRAND_CONFIGS object: two registered brands. -/
def BRAND_CONFIGS : List (String × BrandConfig) :=
  [("greenheck", greenheckBrand), ("neutral", neutralBrand)]

/-- getCurrentBrandConfig reads the registry at the current brand key and
falls back to the greenheck record when the key is absent
(BRAND_CONFIGS[currentBrand] or-else BRAND_CONFIGS.greenheck). -/
def getCurrentBrandConfig (currentBrand : String) : BrandConfig :=
  (assocFind BRAND_CONFIGS currentBrand).getD greenheckBrand

/-- setBrand over the explicit currentBrand state.  The returned Bool
records whether the console warning for an unknown brand id was emitted;
on a hit the DOM re-render applyBrandConfiguration runs, which never
writes currentBrand, so the state transition is fully captured here. -/
def setBrand (brandName : String) (currentBrand : String) : String × Bool :=
  match assocFind BRAND_CONFIGS brandName with
  | some _ => (brandName, false)
  | none => (currentBrand, true)

/-! ## Form validator (script.js, FormValidator) -/

/-- One character of the class excluding whitespace and the at sign,
written in the email regex as the bracket class caret-backslash-s-at. -/
def isEmailChar (c : Char) : Bool :=
  !(jsWhitespace c) && c != '@'

/-- Whether the list contains a dot that is not its last element. -/
def hasDotNonLast : List Char → Bool
  | [] => false
  | [_] => false
  | c :: b :: cs => c == '.' || hasDotNonLast (b :: cs)

/-- Whether the list splits as d1 ++ dot ++ d2 with d1 and d2 nonempty:
a dot that is neither the first nor the last character. -/
def innerDot : List Char → Bool
  | [] => false
  | _ :: rest => hasDotNonLast rest

/-- Decision procedure for the email regex of script.js:
anchored one-or-more non-space-non-at, at sign, one-or-more
non-space-non-at, dot, one-or-more non-space-non-at.  The characters
before the first at sign form the local part; everything after it must be
at-free (enforcing a single at sign), whitespace-free, and contain a dot
with nonempty segments on both sides. -/
def emailMatch (cs : List Char) : Bool :=
  match cs.dropWhile (fun c => c != '@') with
  | [] => false
  | _ :: rest =>
    !((cs.takeWhile (fun c => c != '@')).isEmpty) &&
    (cs.takeWhile (fun c => c != '@')).all isEmailChar &&
    rest.all isEmailChar && innerDot rest

/-- FormValidator.validateEmail. -/
def validateEmail (s : String) : Bool :=
  emailMatch s.data

/-- The separators stripped by validatePhone before the regex test:
whitespace, dash and the two parentheses. -/
def isPhoneSep (c : Char) : Bool :=
  jsWhitespace c || c == '-' || c == '(' || c == ')'

/-- A digit from 1 to 9, the bracket class one-to-nine of the phone regex. -/
def isNonZeroDigit (c : Char) : Bool :=
  decide ('1' ≤ c) && decide (c ≤ '9')

/-- A decimal digit, the backslash-d class of the phone regex. -/
def isDigitChar (c : Char) : Bool :=
  decide ('0' ≤ c) && decide (c ≤ '9')

/-- The mandatory part of the phone regex after the optional plus:
a digit 1 to 9 followed by zero to fifteen further digits, anchored. -/
def phoneDigits : List Char → Bool
  | [] => false
  | c :: rest =>
    isNonZeroDigit c && rest.all isDigitChar && decide (rest.length ≤ 15)

/-- Decision procedure for the phone regex of script.js: an optional
leading plus, then a digit 1 to 9, then up to fifteen digits. -/
def phoneRegexTest : List Char → Bool
  | [] => false
  | c :: rest => if c = '+' then phoneDigits rest else phoneDigits (c :: rest)

/-- FormValidator.validatePhone: strip the separator characters
everywhere in the input, then run the phone regex. -/
def validatePhone (s : String) : Bool :=
  phoneRegexTest (s.data.filter (fun c => !(isPhoneSep c)))

/-- String.prototype.trim: remove leading and trailing whitespace. -/
def jsTrim (cs : List Char) : List Char :=
  ((cs.dropWhile jsWhitespace).reverse.dropWhile jsWhitespace).reverse

/-- FormValidator.validateRequired, value and-also value.trim().length
greater-than 0, read as a truthiness verdict: an empty string is falsy and
short-circuits to a failing verdict. -/
def validateRequired (v : String) : Bool :=
  (v != "") && decide ((jsTrim v.data).length > 0)

/-- FormValidator.validateMessageLength, message and-also message.length
at-most maxLength, read as a truthiness verdict: the empty message
short-circuits to the falsy empty string.  Lengths are counted in
characters; every message the claims exercise is ASCII, where JavaScript
UTF-16 length and character count agree. -/
def validateMessageLength (message : String) (maxLength : Nat) : Bool :=
  (message != "") && decide (message.length ≤ maxLength)

/-! ## Form handler (script.js, FormHandler) -/

/-- One entry of a validation rule list: a predicate on the field value
and the error message reported when the predicate fails. -/
structure Rule where
  validator : String → Bool
  message : String

/-- FormHandler.validateField: scan the rules in order, stop at the first
failure.  The returned pair is the verdict together with the error text
the DOM would display for the field (none once clearError ran). -/
def validateField (value : String) : List Rule → Bool × Option String
  | [] => (true, none)
  | r :: rs =>
    if r.validator value then validateField value rs
    else (false, some r.message)

def contactEmailRules : List Rule :=
  [⟨fun v => validateRequired v, "Email address is required"⟩,
   ⟨fun v => validateEmail v, "Please enter a valid email address"⟩]

/-- not-value or-else value.trim().length at-least 2: an empty name is
accepted, a provided name must have two trimmed characters. -/
def contactNameRules : List Rule :=
  [⟨fun v => (v == "") || decide (2 ≤ (jsTrim v.data).length),
    "Name must be at least 2 characters long"⟩]

def contactPhoneRules : List Rule :=
  [⟨fun v => (v == "") || validatePhone v, "Please enter a valid phone number"⟩]

def contactReasonRules : List Rule :=
  [⟨fun v => validateRequired v, "Please select a reason for contact"⟩]

def contactMessageRules : List Rule :=
  [⟨fun v => validateRequired v, "Message is required"⟩,
   ⟨fun v => validateMessageLength v 2000, "Message must be 2000 characters or less"⟩]

structure ContactFormData where
  email : String
  name : String
  phone : String
  reason : String
  message : String

/-- FormHandler.validateContactForm: the five field verdicts, each
computed from its own field value and rule list, conjoined. -/
def validateContactForm (fd : ContactFormData) : Bool :=
  (validateField fd.email contactEmailRules).1 &&
  (validateField fd.name contactNameRules).1 &&
  (validateField fd.phone contactPhoneRules).1 &&
  (validateField fd.reason contactReasonRules).1 &&
  (validateField fd.message contactMessageRules).1

/-! ## Modal manager (script.js, ModalManager and AppState)

Element references are modelled as Nat.  A modal element carries the
two attributes the manager toggles, the list of its focusable
descendants, and the text of its modal-title descendant if present.
The Dom record holds the modal overlays by element id, the active
(focused) element, the body overflow style, and the screen reader
announcements emitted so far. -/

structure ModalElem where
  active : Bool
  ariaHidden : Bool
  focusables : List Nat
  title : Option String
deriving DecidableEq

structure Dom where
  modals : List (String × ModalElem)
  activeElement : Option Nat
  bodyOverflow : String
  announcements : List String
deriving DecidableEq

structure AppState where
  isContactModalOpen : Bool
  isThankYouModalOpen : Bool
  currentFocusedElement : Option Nat
deriving DecidableEq

/-- Write back a modal element under its id. -/
def setModal : List (String × ModalElem) → String → ModalElem → List (String × ModalElem)
  | [], _, _ => []
  | (k, v) :: rest, id, m =>
    if k = id then (k, m) :: rest else (k, v) :: setModal rest id m

/-- ModalManager.openModal.  A missing element id returns immediately;
otherwise the previously focused element is captured, the modal is shown,
body scroll is suspended, focus moves to the first focusable descendant,
the AppState flag for the two known ids is raised, and an announcement
naming the modal title is emitted.  (trapFocus only installs a keydown
listener and changes no state modelled here.) -/
def openModal (modalId : String) (dom : Dom) (st : AppState) : Dom × AppState :=
  match assocFind dom.modals modalId with
  | none => (dom, st)
  | some m =>
    let st1 : AppState := { st with currentFocusedElement := dom.activeElement }
    let dom1 : Dom :=
      { dom with
        modals := setModal dom.modals modalId { m with active := true, ariaHidden := false }
        bodyOverflow := "hidden" }
    let dom2 : Dom :=
      match m.focusables with
      | [] => dom1
      | f :: _ => { dom1 with activeElement := some f }
    let st2 : AppState :=
      if modalId = "contact-modal" then { st1 with isContactModalOpen := true }
      else if modalId = "thank-you-modal" then { st1 with isThankYouModalOpen := true }
      else st1
    let dom3 : Dom :=
      match m.title with
      | none => dom2
      | some t => { dom2 with announcements := dom2.announcements ++ [t ++ " dialog opened"] }
    (dom3, st2)

/-- ModalManager.closeModal.  A missing element id returns immediately;
otherwise the modal is hidden, body scroll restored, focus returned to
the captured element (clearing the capture) when one is held, the
AppState flag for the two known ids lowered, and a generic announcement
emitted. -/
def closeModal (modalId : String) (dom : Dom) (st : AppState) : Dom × AppState :=
  match assocFind dom.modals modalId with
  | none => (dom, st)
  | some m =>
    let dom1 : Dom :=
      { dom with
        modals := setModal dom.modals modalId { m with active := false, ariaHidden := true }
        bodyOverflow := "" }
    let restored : Dom × AppState :=
      match st.currentFocusedElement with
      | some e => ({ dom1 with activeElement := some e }, { st with currentFocusedElement := none })
      | none => (dom1, st)
    let st2 : AppState :=
      if modalId = "contact-modal" then { restored.2 with isContactModalOpen := false }
      else if modalId = "thank-you-modal" then { restored.2 with isThankYouModalOpen := false }
      else restored.2
    ({ restored.1 with announcements := restored.1.announcements ++ ["Dialog closed"] }, st2)

/-- ModalManager.closeAllModals: hide every overlay, restore body scroll,
lower both open flags.  The focus capture is not touched and nothing is
announced. -/
def closeAllModals (dom : Dom) (st : AppState) : Dom × AppState :=
  ({ dom with
      modals := dom.modals.map (fun kv => (kv.1, { kv.2 with active := false, ariaHidden := true }))
      bodyOverflow := "" },
   { st with isContactModalOpen := false, isThankYouModalOpen := false })

/-- A page with the contact modal present, some element focused, and a
fresh AppState; used to exercise the modal manager on concrete runs. -/
def demoModal : ModalElem :=
  { active := false, ariaHidden := true, focusables := [2], title := some "Contact Us" }

def demoDom : Dom :=
  { modals := [("contact-modal", demoModal)]
    activeElement := some 1
    bodyOverflow := ""
    announcements := [] }

def demoState : AppState :=
  { isContactModalOpen := false, isThankYouModalOpen := false, currentFocusedElement := none }

/-- An empty document: no modal elements at all. -/
def emptyDom : Dom :=
  { modals := [], activeElement := none, bodyOverflow := "", announcements := [] }

/-! ## Specification-side predicates (stated from the claim wording, to
be compared with the code-side decision procedures) -/

/-- The acceptance condition claimed for validateEmail: a single at sign,
a nonempty whitespace-free local part before it, and a domain after it
containing a dot with nonempty whitespace-free parts around it. -/
def EmailShape (s : String) : Prop :=
  ∃ l d1 d2 : List Char,
    s.data = l ++ '@' :: (d1 ++ '.' :: d2) ∧
    l ≠ [] ∧ d1 ≠ [] ∧ d2 ≠ [] ∧
    (∀ c ∈ l, jsWhitespace c = false ∧ c ≠ '@') ∧
    (∀ c ∈ d1 ++ '.' :: d2, jsWhitespace c = false ∧ c ≠ '@')

/-- The acceptance condition claimed for validatePhone on the stripped
input: an optional leading plus, a digit 1 to 9, then 0 to 15 further
digits. -/
def PhoneShape (cs : List Char) : Prop :=
  ∃ head rest, (cs = '+' :: head :: rest ∨ cs = head :: rest) ∧
    '1' ≤ head ∧ head ≤ '9' ∧ rest.length ≤ 15 ∧
    ∀ d ∈ rest, '0' ≤ d ∧ d ≤ '9'

/-! ## Theorems -/

/-- The clamp conditional of darkenColor is the interval clamp to
[0, 255]. -/
theorem jsClamp_eq_clamp (x : Int) : jsClamp x = max 0 (min 255 x) := by
  unfold jsClamp
  split_ifs <;> omega

/-- Claim C1: darkenColor parses the color to a 24-bit integer, subtracts
round(2.55 * percent) from each of the three byte lanes independently,
clamps each lane to [0, 255], and reassembles a zero-padded six-hex-digit
string. -/
theorem darkenColor_spec (c : String) (p n : Nat)
    (h : parseInt16? (stripFirstHash c.data) = some n) :
    darkenColor c p = some ("#" ++ hexSlice6
      ((max 0 (min 255 (Int.ofNat (n / 65536) - darkenAmt p))).toNat * 65536 +
       (max 0 (min 255 (Int.ofNat (n / 256 % 256) - darkenAmt p))).toNat * 256 +
       (max 0 (min 255 (Int.ofNat (n % 256) - darkenAmt p))).toNat)) := by
  unfold darkenColor
  rw [h]
  simp only [jsClamp_eq_clamp]

set_option maxRecDepth 8000

/-- Claim C1 witness: the parse of the hash-stripped input succeeds, the
darkening amount for percent 20 is 51, and darkenColor on the primary
greenheck color gives the value the claim states, with the red lane
clamped at 0. -/
theorem darkenColor_spec_witness :
    parseInt16? (stripFirstHash ("#1e40af".data)) = some 1982639 ∧
    darkenAmt 20 = 51 ∧
    darkenColor "#1e40af" 20 = some "#000d7c" := by
  refine ⟨by decide, by decide, ?_⟩
  rw [darkenColor_spec "#1e40af" 20 1982639 (by decide)]
  decide

/-- Claim C2 counterexample: the empty message has length at most 2000,
yet validateMessageLength rejects it, because the truthiness guard
message and-also ... short-circuits to the falsy empty string. -/
theorem validateMessageLength_claim_refuted :
    ¬ (validateMessageLength "" 2000 = true ↔ String.length "" ≤ 2000) := by
  decide

/-- validateMessageLength gives a truthy verdict exactly on nonempty
messages within the cap. -/
theorem validateMessageLength_iff (m : String) (maxLen : Nat) :
    validateMessageLength m maxLen = true ↔ (m ≠ "" ∧ m.length ≤ maxLen) := by
  unfold validateMessageLength
  simp [Bool.and_eq_true]

/-- The character count of a replicated-character string. -/
theorem length_mk_replicate (n : Nat) (c : Char) :
    (String.mk (List.replicate n c)).length = n := by
  show (List.replicate n c).length = n
  exact List.length_replicate n c

/-- A replicated-character string of positive length is not empty. -/
theorem mk_replicate_ne_empty (n : Nat) (c : Char) (h : 0 < n) :
    String.mk (List.replicate n c) ≠ "" := by
  intro hcon
  have hdata : List.replicate n c = ([] : List Char) := congrArg String.data hcon
  have := congrArg List.length hdata
  simp at this
  omega

/-- Claim C2 amended: with the default cap, validateMessageLength gives a
truthy verdict exactly when the message is nonempty and its length is at
most 2000; a message of exactly 2000 characters passes, one of 2001
characters fails, and the empty message fails. -/
theorem validateMessageLength_amended :
    (∀ m maxLen, validateMessageLength m maxLen = true ↔ (m ≠ "" ∧ m.length ≤ maxLen)) ∧
    validateMessageLength (String.mk (List.replicate 2000 'a')) 2000 = true ∧
    validateMessageLength (String.mk (List.replicate 2001 'a')) 2000 = false ∧
    validateMessageLength "" 2000 = false := by
  refine ⟨validateMessageLength_iff, ?_, ?_, by decide⟩
  · exact (validateMessageLength_iff _ _).mpr
      ⟨mk_replicate_ne_empty 2000 'a' (by omega),
       by rw [length_mk_replicate]⟩
  · rw [Bool.eq_false_iff]
    intro hcon
    have hlen := ((validateMessageLength_iff _ _).mp hcon).2
    rw [length_mk_replicate] at hlen
    omega

/-- Claim C2 amended witness: a five-character message passes under the
default cap. -/
theorem validateMessageLength_amended_witness :
    validateMessageLength "hello" 2000 = true :=
  (validateMessageLength_amended.1 "hello" 2000).mpr (by decide)

/-- Claim C3: for a brand id registered in BRAND_CONFIGS, setBrand
followed by getCurrentBrandConfig returns the record stored under that
id, from any prior state. -/
theorem setBrand_then_get (id st : String) (cfg : BrandConfig)
    (h : assocFind BRAND_CONFIGS id = some cfg) :
    getCurrentBrandConfig (setBrand id st).1 = cfg := by
  unfold setBrand
  rw [h]
  unfold getCurrentBrandConfig
  rw [h]
  rfl

/-- Claim C3 witness: switching from greenheck to neutral yields the
neutral record. -/
theorem setBrand_then_get_witness :
    getCurrentBrandConfig (setBrand "neutral" "greenheck").1 = neutralBrand :=
  setBrand_then_get "neutral" "greenheck" neutralBrand rfl

/-- Claim C4: for an id absent from BRAND_CONFIGS, setBrand leaves the
current brand unchanged, reports the warning, and the configuration read
back afterwards is the same record as before the call. -/
theorem setBrand_unknown_noop (id st : String)
    (h : assocFind BRAND_CONFIGS id = none) :
    setBrand id st = (st, true) ∧
    getCurrentBrandConfig (setBrand id st).1 = getCurrentBrandConfig st := by
  unfold setBrand
  rw [h]
  exact ⟨rfl, rfl⟩

/-- Claim C4 witness: setBrand on the id nonexistent warns and leaves the
greenheck state in place. -/
theorem setBrand_unknown_noop_witness :
    setBrand "nonexistent" "greenheck" = ("greenheck", true) ∧
    getCurrentBrandConfig (setBrand "nonexistent" "greenheck").1 =
      getCurrentBrandConfig "greenheck" :=
  setBrand_unknown_noop "nonexistent" "greenheck" rfl

/-- Claim C10: getCurrentBrandConfig is total: it always yields one of
the two registry records, and on any key absent from the registry it
falls back to the greenheck record. -/
theorem getCurrentBrandConfig_total :
    (∀ st, getCurrentBrandConfig st = greenheckBrand ∨
      getCurrentBrandConfig st = neutralBrand) ∧
    (∀ st, assocFind BRAND_CONFIGS st = none →
      getCurrentBrandConfig st = greenheckBrand) := by
  constructor
  · intro st
    by_cases h1 : st = "greenheck"
    · exact Or.inl (by rw [h1]; rfl)
    · by_cases h2 : st = "neutral"
      · exact Or.inr (by rw [h2]; rfl)
      · refine Or.inl ?_
        have hnone : assocFind BRAND_CONFIGS st = none := by
          unfold BRAND_CONFIGS
          rw [assocFind, if_neg (fun hc => h1 hc.symm),
            assocFind, if_neg (fun hc => h2 hc.symm), assocFind]
        unfold getCurrentBrandConfig
        rw [hnone]
        rfl
  · intro st h
    unfold getCurrentBrandConfig
    rw [h]
    rfl

/-- Claim C10 witness: the fallback on an unregistered key. -/
theorem getCurrentBrandConfig_total_witness :
    getCurrentBrandConfig "nonexistent" = greenheckBrand :=
  getCurrentBrandConfig_total.2 "nonexistent" rfl

/-- Claim C8: when the modal id has no element in the document, openModal
and closeModal return the document and application state untouched. -/
theorem modal_missing_noop (modalId : String) (dom : Dom) (st : AppState)
    (h : assocFind dom.modals modalId = none) :
    openModal modalId dom st = (dom, st) ∧
    closeModal modalId dom st = (dom, st) := by
  constructor
  · unfold openModal
    rw [h]
  · unfold closeModal
    rw [h]

/-- Claim C8 witness: on an empty document both calls are no-ops. -/
theorem modal_missing_noop_witness :
    assocFind emptyDom.modals "contact-modal" = none ∧
    openModal "contact-modal" emptyDom demoState = (emptyDom, demoState) ∧
    closeModal "contact-modal" emptyDom demoState = (emptyDom, demoState) :=
  ⟨rfl, (modal_missing_noop "contact-modal" emptyDom demoState rfl).1,
    (modal_missing_noop "contact-modal" emptyDom demoState rfl).2⟩

/-- The head of the dropWhile remainder fails the predicate. -/
theorem dropWhile_head_false (p : Char → Bool) (cs : List Char) (x : Char)
    (rest : List Char) (h : cs.dropWhile p = x :: rest) : p x = false := by
  induction cs with
  | nil => simp [List.dropWhile] at h
  | cons a t ih =>
    rw [List.dropWhile_cons] at h
    by_cases hpa : p a = true
    · rw [if_pos hpa] at h
      exact ih h
    · rw [if_neg hpa] at h
      cases h
      exact Bool.eq_false_iff.mpr hpa

/-- takeWhile and dropWhile at the first failing element of a split
list. -/
theorem takeWhile_dropWhile_split (p : Char → Bool) (l : List Char) (x : Char)
    (r : List Char) (hl : ∀ c ∈ l, p c = true) (hx : p x = false) :
    (l ++ x :: r).takeWhile p = l ∧ (l ++ x :: r).dropWhile p = x :: r := by
  induction l with
  | nil =>
    constructor
    · rw [List.nil_append, List.takeWhile_cons, hx]
      simp
    · rw [List.nil_append, List.dropWhile_cons, hx]
      simp
  | cons a t ih =>
    have ha : p a = true := hl a (by simp)
    have iht := ih (fun c hc => hl c (by simp [hc]))
    constructor
    · rw [List.cons_append, List.takeWhile_cons, ha]
      simp [iht.1]
    · rw [List.cons_append, List.dropWhile_cons, ha]
      simp [iht.2]

/-- hasDotNonLast holds exactly when the list has a dot that is not its
last element. -/
theorem hasDotNonLast_iff (l : List Char) :
    hasDotNonLast l = true ↔ ∃ p q, l = p ++ '.' :: q ∧ q ≠ [] := by
  induction l with
  | nil =>
    constructor
    · intro h
      simp [hasDotNonLast] at h
    · rintro ⟨p, q, hpq, _⟩
      exact absurd hpq (by simp)
  | cons a t ih =>
    cases t with
    | nil =>
      constructor
      · intro h
        simp [hasDotNonLast] at h
      · rintro ⟨p, q, hpq, hq⟩
        have hlen := congrArg List.length hpq
        simp [List.length_append] at hlen
        have : q.length = 0 := by omega
        exact (hq (List.length_eq_zero.mp this)).elim
    | cons b bs =>
      rw [show hasDotNonLast (a :: b :: bs) = (a == '.' || hasDotNonLast (b :: bs)) from rfl]
      rw [Bool.or_eq_true, beq_iff_eq]
      constructor
      · rintro (rfl | h)
        · exact ⟨[], b :: bs, rfl, by simp⟩
        · obtain ⟨p, q, hpq, hq⟩ := ih.mp h
          exact ⟨a :: p, q, by rw [List.cons_append, hpq], hq⟩
      · rintro ⟨p, q, hpq, hq⟩
        cases p with
        | nil =>
          cases hpq
          exact Or.inl rfl
        | cons y ys =>
          rw [List.cons_append] at hpq
          injection hpq with h1 h2
          exact Or.inr (ih.mpr ⟨ys, q, h2, hq⟩)

/-- innerDot holds exactly when the list splits around a dot with
nonempty sides. -/
theorem innerDot_iff (l : List Char) :
    innerDot l = true ↔ ∃ d1 d2, l = d1 ++ '.' :: d2 ∧ d1 ≠ [] ∧ d2 ≠ [] := by
  cases l with
  | nil =>
    constructor
    · intro h
      simp [innerDot] at h
    · rintro ⟨d1, d2, hpq, _, _⟩
      exact absurd hpq (by simp)
  | cons a rest =>
    rw [show innerDot (a :: rest) = hasDotNonLast rest from rfl, hasDotNonLast_iff]
    constructor
    · rintro ⟨p, q, hpq, hq⟩
      exact ⟨a :: p, q, by rw [List.cons_append, hpq], by simp, hq⟩
    · rintro ⟨d1, d2, hpq, hd1, hd2⟩
      cases d1 with
      | nil => exact absurd rfl hd1
      | cons y ys =>
        rw [List.cons_append] at hpq
        injection hpq with h1 h2
        exact ⟨ys, d2, h2, hd2⟩

/-- isEmailChar as a proposition. -/
theorem isEmailChar_iff (c : Char) :
    isEmailChar c = true ↔ (jsWhitespace c = false ∧ c ≠ '@') := by
  unfold isEmailChar
  rw [Bool.and_eq_true, bne_iff_ne]
  cases hj : jsWhitespace c <;> simp

/-- The email decision procedure accepts exactly the decompositions of
the claimed shape. -/
theorem emailMatch_iff (cs : List Char) :
    emailMatch cs = true ↔
      ∃ l d1 d2 : List Char,
        cs = l ++ '@' :: (d1 ++ '.' :: d2) ∧
        l ≠ [] ∧ d1 ≠ [] ∧ d2 ≠ [] ∧
        (∀ c ∈ l, jsWhitespace c = false ∧ c ≠ '@') ∧
        (∀ c ∈ d1 ++ '.' :: d2, jsWhitespace c = false ∧ c ≠ '@') := by
  constructor
  · intro h
    unfold emailMatch at h
    cases hdrop : cs.dropWhile (fun c => c != '@') with
    | nil =>
      rw [hdrop] at h
      simp at h
    | cons x rest =>
      rw [hdrop] at h
      rw [Bool.and_eq_true, Bool.and_eq_true, Bool.and_eq_true] at h
      obtain ⟨⟨⟨h1, h2⟩, h3⟩, h4⟩ := h
      have hx : (x != '@') = false := dropWhile_head_false _ cs x rest hdrop
      have hx' : x = '@' := by
        by_contra hne
        rw [bne_iff_ne.mpr hne] at hx
        simp at hx
      have hsplit := List.takeWhile_append_dropWhile (fun c => c != '@') cs
      rw [hdrop, hx'] at hsplit
      obtain ⟨d1, d2, hrest, hd1, hd2⟩ := (innerDot_iff rest).mp h4
      refine ⟨cs.takeWhile (fun c => c != '@'), d1, d2, ?_, ?_, hd1, hd2, ?_, ?_⟩
      · rw [← hrest]
        exact hsplit.symm
      · intro hcon
        rw [hcon] at h1
        simp at h1
      · intro c hc
        exact (isEmailChar_iff c).mp (List.all_eq_true.mp h2 c hc)
      · rw [← hrest]
        intro c hc
        exact (isEmailChar_iff c).mp (List.all_eq_true.mp h3 c hc)
  · rintro ⟨l, d1, d2, hcs, hl, hd1, hd2, hlc, hdc⟩
    have hpl : ∀ c ∈ l, (fun c => c != '@') c = true := by
      intro c hc
      exact bne_iff_ne.mpr (hlc c hc).2
    have hsplit := takeWhile_dropWhile_split (fun c => c != '@') l '@'
      (d1 ++ '.' :: d2) hpl (by simp)
    unfold emailMatch
    rw [hcs, hsplit.2, hsplit.1]
    rw [Bool.and_eq_true, Bool.and_eq_true, Bool.and_eq_true]
    refine ⟨⟨⟨?_, ?_⟩, ?_⟩, ?_⟩
    · cases l with
      | nil => exact absurd rfl hl
      | cons a t => simp
    · exact List.all_eq_true.mpr (fun c hc => (isEmailChar_iff c).mpr (hlc c hc))
    · exact List.all_eq_true.mpr (fun c hc => (isEmailChar_iff c).mpr (hdc c hc))
    · exact (innerDot_iff _).mpr ⟨d1, d2, rfl, hd1, hd2⟩

/-- Claim C5: validateEmail accepts exactly the strings with a single at
sign, a nonempty whitespace-free local part, and a domain containing a
dot with nonempty whitespace-free parts around it; the three example
inputs behave as stated. -/
theorem validateEmail_spec :
    (∀ s : String, validateEmail s = true ↔ EmailShape s) ∧
    validateEmail "user@example.com" = true ∧
    validateEmail "not-an-email" = false ∧
    validateEmail "a@b" = false :=
  ⟨fun s => emailMatch_iff s.data, by decide, by decide, by decide⟩

/-- Claim C5 witness: instantiating the characterization on a small
address. -/
theorem validateEmail_spec_witness : validateEmail "x@y.z" = true :=
  (validateEmail_spec.1 "x@y.z").mpr
    ⟨['x'], ['y'], ['z'], by decide, by decide, by decide, by decide,
      by decide, by decide⟩

/-- isNonZeroDigit as a proposition. -/
theorem isNonZeroDigit_iff (c : Char) :
    isNonZeroDigit c = true ↔ ('1' ≤ c ∧ c ≤ '9') := by
  unfold isNonZeroDigit
  rw [Bool.and_eq_true, decide_eq_true_eq, decide_eq_true_eq]

/-- isDigitChar as a proposition. -/
theorem isDigitChar_iff (c : Char) :
    isDigitChar c = true ↔ ('0' ≤ c ∧ c ≤ '9') := by
  unfold isDigitChar
  rw [Bool.and_eq_true, decide_eq_true_eq, decide_eq_true_eq]

/-- The digit body of the phone regex accepts exactly a nonzero digit
followed by up to fifteen digits. -/
theorem phoneDigits_iff (cs : List Char) :
    phoneDigits cs = true ↔
      ∃ c rest, cs = c :: rest ∧ '1' ≤ c ∧ c ≤ '9' ∧ rest.length ≤ 15 ∧
        ∀ d ∈ rest, '0' ≤ d ∧ d ≤ '9' := by
  cases cs with
  | nil =>
    constructor
    · intro h
      simp [phoneDigits] at h
    · rintro ⟨c, rest, hcr, _⟩
      exact absurd hcr (by simp)
  | cons a rest =>
    rw [show phoneDigits (a :: rest) =
      (isNonZeroDigit a && rest.all isDigitChar && decide (rest.length ≤ 15)) from rfl]
    rw [Bool.and_eq_true, Bool.and_eq_true, isNonZeroDigit_iff, decide_eq_true_eq]
    constructor
    · rintro ⟨⟨⟨h1, h2⟩, h3⟩, h4⟩
      exact ⟨a, rest, rfl, h1, h2, h4,
        fun d hd => (isDigitChar_iff d).mp (List.all_eq_true.mp h3 d hd)⟩
    · rintro ⟨c, r, hcr, h1, h2, h3, h4⟩
      injection hcr with hc hr
      subst hc
      subst hr
      exact ⟨⟨⟨h1, h2⟩,
        List.all_eq_true.mpr (fun d hd => (isDigitChar_iff d).mpr (h4 d hd))⟩, h3⟩

/-- The phone regex accepts exactly the claimed shape. -/
theorem phoneRegexTest_iff (cs : List Char) :
    phoneRegexTest cs = true ↔ PhoneShape cs := by
  unfold PhoneShape
  cases cs with
  | nil =>
    constructor
    · intro h
      simp [phoneRegexTest] at h
    · rintro ⟨head, rest, (hcr | hcr), _⟩ <;> exact absurd hcr (by simp)
  | cons a rest =>
    rw [show phoneRegexTest (a :: rest) =
      (if a = '+' then phoneDigits rest else phoneDigits (a :: rest)) from rfl]
    by_cases ha : a = '+'
    · subst ha
      rw [if_pos rfl, phoneDigits_iff]
      constructor
      · rintro ⟨c, r, hcr, h1, h2, h3, h4⟩
        exact ⟨c, r, Or.inl (by rw [hcr]), h1, h2, h3, h4⟩
      · rintro ⟨hd, r, (hcr | hcr), h1, h2, h3, h4⟩
        · injection hcr with hc hr
          exact ⟨hd, r, hr, h1, h2, h3, h4⟩
        · injection hcr with hc hr
          rw [← hc] at h1
          exact absurd h1 (by decide)
    · rw [if_neg ha, phoneDigits_iff]
      constructor
      · rintro ⟨c, r, hcr, h1, h2, h3, h4⟩
        exact ⟨c, r, Or.inr hcr, h1, h2, h3, h4⟩
      · rintro ⟨hd, r, (hcr | hcr), h1, h2, h3, h4⟩
        · injection hcr with hc hr
          exact absurd hc ha
        · exact ⟨hd, r, hcr, h1, h2, h3, h4⟩

/-- Claim C6: validatePhone strips space, dash and parenthesis
characters, then accepts exactly an optional leading plus, a digit 1 to
9, and up to fifteen further digits; the two example inputs behave as
stated. -/
theorem validatePhone_spec :
    (∀ s : String, validatePhone s = true ↔
      PhoneShape (s.data.filter (fun c => !(isPhoneSep c)))) ∧
    validatePhone "(855) 886-8324" = true ∧
    validatePhone "abc" = false :=
  ⟨fun s => phoneRegexTest_iff _, by decide, by decide⟩

/-- Claim C6 witness: instantiating the characterization on a small
number with a plus and separators. -/
theorem validatePhone_spec_witness : validatePhone "+12 345" = true :=
  (validatePhone_spec.1 "+12 345").mpr
    ⟨'1', ['2', '3', '4', '5'], Or.inl (by decide), by decide, by decide,
      by decide, by decide⟩

/-- Claim C7: validateContactForm is the conjunction of the five per-field
verdicts, each computed from its own field value against its own rule
list; a submission with empty reason and empty message fails overall
while each of those two fields reports its own message. -/
theorem validateContactForm_spec :
    (∀ fd : ContactFormData, validateContactForm fd = true ↔
      ((validateField fd.email contactEmailRules).1 = true ∧
       (validateField fd.name contactNameRules).1 = true ∧
       (validateField fd.phone contactPhoneRules).1 = true ∧
       (validateField fd.reason contactReasonRules).1 = true ∧
       (validateField fd.message contactMessageRules).1 = true)) ∧
    validateContactForm ⟨"user@example.com", "", "", "", ""⟩ = false ∧
    validateField "" contactReasonRules = (false, some "Please select a reason for contact") ∧
    validateField "" contactMessageRules = (false, some "Message is required") := by
  refine ⟨?_, by decide, by decide, by decide⟩
  intro fd
  unfold validateContactForm
  rw [Bool.and_eq_true, Bool.and_eq_true, Bool.and_eq_true, Bool.and_eq_true]
  tauto

/-- Claim C7 witness: a fully valid submission passes all five fields. -/
theorem validateContactForm_spec_witness :
    validateContactForm ⟨"a@b.c", "", "", "billing", "hi"⟩ = true :=
  (validateContactForm_spec.1 ⟨"a@b.c", "", "", "billing", "hi"⟩).mpr
    ⟨by decide, by decide, by decide, by decide, by decide⟩

/-- Claim C9 counterexample: open the contact modal (capturing the
previously focused element 1), then call closeAllModals; the capture is
still element 1, not cleared, contradicting the claim that every
modal-closing operation leaves the capture empty. -/
theorem closeAllModals_keeps_capture :
    (closeAllModals (openModal "contact-modal" demoDom demoState).1
        (openModal "contact-modal" demoDom demoState).2).2.currentFocusedElement = some 1 ∧
    (closeAllModals (openModal "contact-modal" demoDom demoState).1
        (openModal "contact-modal" demoDom demoState).2).2.currentFocusedElement ≠ none := by
  constructor <;> decide

/-- Claim C9 amended: the capture is set to the previously active element
by every successful open and cleared by closeModal on an existing modal;
closeAllModals leaves it unchanged. -/
theorem focus_capture_spec :
    (∀ modalId dom st m, assocFind dom.modals modalId = some m →
      ((openModal modalId dom st).2.currentFocusedElement = dom.activeElement ∧
       (closeModal modalId dom st).2.currentFocusedElement = none)) ∧
    (∀ dom st, (closeAllModals dom st).2.currentFocusedElement =
      st.currentFocusedElement) := by
  constructor
  · intro modalId dom st m h
    constructor
    · by_cases h1 : modalId = "contact-modal"
      · subst h1
        simp [openModal, h]
      · by_cases h2 : modalId = "thank-you-modal"
        · subst h2
          simp [openModal, h, h1]
        · simp [openModal, h, h1, h2]
    · cases hc : st.currentFocusedElement with
      | none =>
        by_cases h1 : modalId = "contact-modal"
        · subst h1
          simp [closeModal, h, hc]
        · by_cases h2 : modalId = "thank-you-modal"
          · subst h2
            simp [closeModal, h, hc, h1]
          · simp [closeModal, h, hc, h1, h2]
      | some e =>
        by_cases h1 : modalId = "contact-modal"
        · subst h1
          simp [closeModal, h, hc]
        · by_cases h2 : modalId = "thank-you-modal"
          · subst h2
            simp [closeModal, h, hc, h1]
          · simp [closeModal, h, hc, h1, h2]
  · intro dom st
    rfl

/-- Claim C9 amended witness: the three behaviors on the concrete demo
page. -/
theorem focus_capture_spec_witness :
    assocFind demoDom.modals "contact-modal" = some demoModal ∧
    (openModal "contact-modal" demoDom demoState).2.currentFocusedElement = demoDom.activeElement ∧
    (closeModal "contact-modal" demoDom demoState).2.currentFocusedElement = none ∧
    (closeAllModals demoDom demoState).2.currentFocusedElement = demoState.currentFocusedElement :=
  ⟨rfl,
   (focus_capture_spec.1 "contact-modal" demoDom demoState demoModal rfl).1,
   (focus_capture_spec.1 "contact-modal" demoDom demoState demoModal rfl).2,
   focus_capture_spec.2 demoDom demoState⟩
